import Mathlib

/-!
Shallow embedding of the tidal-wave device-configuration codec and
patch/diff reconciliation engine (src/usb_device.rs, src/ui_state.rs,
src/stdio.rs), together with theorems checking the specification's
claims against it.

Bytes are modelled as `Nat` (values below 256 where the Rust `u8` type
guarantees it), a 34-byte buffer as a function `Nat → Nat`, and fallible
decoding as `Except String`.
-/

namespace TidalWave

/-- A 34-byte wire buffer; indices 0..33 are meaningful. -/
def Buf : Type := Nat → Nat

/-- Rust `Color([u8; 3])`: an RGB triple. -/
structure Color where
  c0 : Nat
  c1 : Nat
  c2 : Nat
deriving DecidableEq

/-- Rust `enum LowcutFilter` from src/usb_device.rs. -/
inductive LowcutFilter where
  | Off
  | Cutoff080Hz
  | Cutoff120Hz
deriving DecidableEq

/-- The `#[repr(u16)]` discriminant of `LowcutFilter`, i.e. the value of
`lowcut as u16` used by `DeviceConfiguration::write`:
`Off = 0x0000`, `Cutoff080Hz = 0x0100`, `Cutoff120Hz = 0x0001`. -/
def LowcutFilter.asU16 : LowcutFilter → Nat
  | .Off => 0x0000
  | .Cutoff080Hz => 0x0100
  | .Cutoff120Hz => 0x0001

/-- Rust `struct DeviceConfiguration` from src/usb_device.rs. -/
structure DeviceConfiguration where
  gain : Nat
  mute : Bool
  clipguard : Bool
  phantom : Bool
  lowcut : LowcutFilter
  volume : Int
  mix : Nat
  color_mute : Color
  color_gen : Color
  gain_lock : Bool
  color_gain_reduction : Color
  clipguard_indicator : Bool
  lim : Bool
deriving DecidableEq

/-- The error message produced by `read_bool` (via `try_read_field` with
`typ = "bool"` and `LEN = 1`): `expected bool at {OFFSET}:1 got {err}`. -/
def boolErr (o got : Nat) : String :=
  "expected bool at " ++ toString o ++ ":1 got " ++ toString got

/-- The error message produced by the lowcut branch of
`DeviceConfiguration::read` (via `try_read_field` with
`typ = "Lowcut Filter"`, `OFFSET = 7`, `LEN = 2`). -/
def lowcutErr (got : Nat) : String :=
  "expected Lowcut Filter at 7:2 got " ++ toString got

/-- Rust `read_bool::<OFFSET, LEN>`: the byte must be exactly `0` or `1`. -/
def read_bool (buf : Buf) (o : Nat) : Except String Bool :=
  if buf o = 0 then Except.ok false
  else if buf o = 1 then Except.ok true
  else Except.error (boolErr o (buf o))

/-- Rust `u16::from_le_bytes` of the two bytes at offset `o`. -/
def read_u16 (buf : Buf) (o : Nat) : Nat := buf o + 256 * buf (o + 1)

/-- Rust `i16::from_le_bytes` of the two bytes at offset `o`. -/
def read_i16 (buf : Buf) (o : Nat) : Int :=
  if buf o + 256 * buf (o + 1) < 32768 then (buf o + 256 * buf (o + 1) : Nat)
  else (buf o + 256 * buf (o + 1) : Nat) - 65536

/-- The lowcut branch of `DeviceConfiguration::read`: the u16 at offset 7
must be exactly `0x0000`, `0x0001` or `0x0100`. -/
def read_lowcut (buf : Buf) : Except String LowcutFilter :=
  if read_u16 buf 7 = 0x0000 then Except.ok LowcutFilter.Off
  else if read_u16 buf 7 = 0x0001 then Except.ok LowcutFilter.Cutoff080Hz
  else if read_u16 buf 7 = 0x0100 then Except.ok LowcutFilter.Cutoff120Hz
  else Except.error (lowcutErr (read_u16 buf 7))

/-- Rust `Color::read::<OFFSET, LEN>`: always reads exactly three bytes at
`OFFSET` (the `LEN` const generic is ignored by the implementation). -/
def Color.read (buf : Buf) (o : Nat) : Color :=
  { c0 := buf o, c1 := buf (o + 1), c2 := buf (o + 2) }

/-- Rust `DeviceConfiguration::read`: decode the 34-byte record. The fallible
field reads happen in the order of the Rust struct literal (offsets
4, 5, 6, 7–8, 28, 32, 33), short-circuiting on the first error. -/
def DeviceConfiguration.read (buf : Buf) : Except String DeviceConfiguration := do
  let mute ← read_bool buf 4
  let clipguard ← read_bool buf 5
  let phantom ← read_bool buf 6
  let lowcut ← read_lowcut buf
  let gain_lock ← read_bool buf 28
  let clipguard_indicator ← read_bool buf 32
  let lim ← read_bool buf 33
  Except.ok
    { gain := read_u16 buf 0
      mute := mute
      clipguard := clipguard
      phantom := phantom
      lowcut := lowcut
      volume := read_i16 buf 9
      mix := buf 13
      color_mute := Color.read buf 15
      color_gen := Color.read buf 18
      gain_lock := gain_lock
      color_gain_reduction := Color.read buf 29
      clipguard_indicator := clipguard_indicator
      lim := lim }

/-- The derived byte 12 of `DeviceConfiguration::write`:
`match self.mix { 41 | 47 => 1, _ => 0 }`. -/
def mixFlag (mix : Nat) : Nat :=
  if mix = 41 then 1 else if mix = 47 then 1 else 0

/-- Low byte of `i16::to_le_bytes`. -/
def i16lo (v : Int) : Nat := (v % 65536).toNat % 256

/-- High byte of `i16::to_le_bytes`. -/
def i16hi (v : Int) : Nat := (v % 65536).toNat / 256 % 256

/-- Rust `DeviceConfiguration::write`: encode the 34-byte record. The Rust
code fills a zero-initialised `[u8; 34]`; indices beyond 33 keep the
initial `0`. -/
def DeviceConfiguration.write (c : DeviceConfiguration) : Buf := fun i =>
  match i with
  | 0 => c.gain % 256
  | 1 => c.gain / 256 % 256
  | 2 => 0x00
  | 3 => 0xec
  | 4 => if c.mute then 1 else 0
  | 5 => if c.clipguard then 1 else 0
  | 6 => if c.phantom then 1 else 0
  | 7 => c.lowcut.asU16 % 256
  | 8 => c.lowcut.asU16 / 256 % 256
  | 9 => i16lo c.volume
  | 10 => i16hi c.volume
  | 11 => 0
  | 12 => mixFlag c.mix
  | 13 => c.mix
  | 14 => 1
  | 15 => c.color_mute.c0
  | 16 => c.color_mute.c1
  | 17 => c.color_mute.c2
  | 18 => c.color_gen.c0
  | 19 => c.color_gen.c1
  | 20 => c.color_gen.c2
  | 21 => c.color_gen.c0
  | 22 => c.color_gen.c1
  | 23 => c.color_gen.c2
  | 24 => c.color_gen.c0
  | 25 => c.color_gen.c1
  | 26 => c.color_gen.c2
  | 27 => 1
  | 28 => if c.gain_lock then 1 else 0
  | 29 => c.color_gain_reduction.c0
  | 30 => c.color_gain_reduction.c1
  | 31 => c.color_gain_reduction.c2
  | 32 => if c.clipguard_indicator then 1 else 0
  | 33 => if c.lim then 1 else 0
  | _ => 0

/-- Rust `struct Line` from src/ui_state.rs: the sparse patch / telemetry
shape. The first thirteen fields are the domain fields; `persistent` and
`use_cached` are transport directives; `err` is the error report. -/
structure Line where
  gain : Option Nat
  mute : Option Bool
  clipguard : Option Bool
  phantom : Option Bool
  lowcut : Option LowcutFilter
  volume : Option Int
  mix : Option Nat
  color_mute : Option Color
  color_gen : Option Color
  gain_lock : Option Bool
  color_gain_reduction : Option Color
  clipguard_indicator : Option Bool
  lim : Option Bool
  persistent : Option Bool
  use_cached : Option Bool
  err : Option String
deriving DecidableEq

/-- Rust `Line::is_empty`: all thirteen domain fields and `err` are `None`
(`persistent` and `use_cached` are ignored). -/
def Line.is_empty (l : Line) : Bool :=
  l.gain.isNone && l.mute.isNone && l.clipguard.isNone && l.phantom.isNone
    && l.lowcut.isNone && l.volume.isNone && l.mix.isNone && l.color_mute.isNone
    && l.color_gen.isNone && l.gain_lock.isNone && l.color_gain_reduction.isNone
    && l.clipguard_indicator.isNone && l.lim.isNone && l.err.isNone

/-- Rust `DeviceConfiguration::merge`: every domain field present in the patch
overwrites the corresponding field; absent fields pass through;
`persistent`, `use_cached` and `err` are ignored. -/
def DeviceConfiguration.merge (c : DeviceConfiguration) (l : Line) : DeviceConfiguration :=
  { gain := l.gain.getD c.gain
    mute := l.mute.getD c.mute
    clipguard := l.clipguard.getD c.clipguard
    phantom := l.phantom.getD c.phantom
    lowcut := l.lowcut.getD c.lowcut
    volume := l.volume.getD c.volume
    mix := l.mix.getD c.mix
    color_mute := l.color_mute.getD c.color_mute
    color_gen := l.color_gen.getD c.color_gen
    gain_lock := l.gain_lock.getD c.gain_lock
    color_gain_reduction := l.color_gain_reduction.getD c.color_gain_reduction
    clipguard_indicator := l.clipguard_indicator.getD c.clipguard_indicator
    lim := l.lim.getD c.lim }

/-- Rust `struct UiState` from src/ui_state.rs: the cached canonical
configuration and the last-reported snapshot `io`. -/
structure UiState where
  cached : DeviceConfiguration
  io : Line

/-- The per-field logic of `UiState::update_device_info`: given the
current value and the snapshot's stored value, return the new stored
value and the emitted value. Mirrors the Rust match: a stored value that
differs is updated and emitted, a missing stored value is set and
emitted, an equal stored value is kept and nothing is emitted. -/
def diffField {α : Type} [DecidableEq α] (cur : α) (snap : Option α) : Option α × Option α :=
  match snap with
  | some v => if cur = v then (some v, none) else (some cur, some cur)
  | none => (some cur, some cur)

/-- Rust `UiState::update_device_info`: replace `cached` by `config`, update
every domain field of the snapshot via `diffField`, take the stored
error into the emitted line (leaving `none` behind), and return the new
state together with the emitted line (whose `persistent` and
`use_cached` are always `none`). -/
def UiState.update_device_info (s : UiState) (config : DeviceConfiguration) : UiState × Line :=
  ({ cached := config
     io := { gain := (diffField config.gain s.io.gain).1
             mute := (diffField config.mute s.io.mute).1
             clipguard := (diffField config.clipguard s.io.clipguard).1
             phantom := (diffField config.phantom s.io.phantom).1
             lowcut := (diffField config.lowcut s.io.lowcut).1
             volume := (diffField config.volume s.io.volume).1
             mix := (diffField config.mix s.io.mix).1
             color_mute := (diffField config.color_mute s.io.color_mute).1
             color_gen := (diffField config.color_gen s.io.color_gen).1
             gain_lock := (diffField config.gain_lock s.io.gain_lock).1
             color_gain_reduction := (diffField config.color_gain_reduction s.io.color_gain_reduction).1
             clipguard_indicator := (diffField config.clipguard_indicator s.io.clipguard_indicator).1
             lim := (diffField config.lim s.io.lim).1
             persistent := s.io.persistent
             use_cached := s.io.use_cached
             err := none } },
   { gain := (diffField config.gain s.io.gain).2
     mute := (diffField config.mute s.io.mute).2
     clipguard := (diffField config.clipguard s.io.clipguard).2
     phantom := (diffField config.phantom s.io.phantom).2
     lowcut := (diffField config.lowcut s.io.lowcut).2
     volume := (diffField config.volume s.io.volume).2
     mix := (diffField config.mix s.io.mix).2
     color_mute := (diffField config.color_mute s.io.color_mute).2
     color_gen := (diffField config.color_gen s.io.color_gen).2
     gain_lock := (diffField config.gain_lock s.io.gain_lock).2
     color_gain_reduction := (diffField config.color_gain_reduction s.io.color_gain_reduction).2
     clipguard_indicator := (diffField config.clipguard_indicator s.io.clipguard_indicator).2
     lim := (diffField config.lim s.io.lim).2
     persistent := none
     use_cached := none
     err := s.io.err })

/-- Rust `enum Mode` from src/usb_device.rs (the spelling `Persistant` is the
source's). -/
inductive Mode where
  | Temporary
  | Persistant
deriving DecidableEq

/-- The write-mode selection of the inbound loop:
`match persistent.unwrap_or(false) { true => Persistant, false => Temporary }`. -/
def writeMode (p : Option Bool) : Mode :=
  if p.getD false then Mode.Persistant else Mode.Temporary

/-- One inbound unit of work (the body of the stdin loop in src/stdio.rs
after the line is parsed), with the device read's outcome supplied as
`readResult`. If `use_cached` is not `some true`, the device is read:
on failure the unit aborts, recording the error in `io.err` and writing
nothing; on success `cached` is replaced by the read configuration
before the merge. The returned pair is the new state and, when the unit
reaches the write, the configuration and mode written to the device. -/
def inboundUnit (s : UiState) (line : Line) (readResult : Except String DeviceConfiguration) :
    UiState × Option (DeviceConfiguration × Mode) :=
  if line.use_cached.getD false then
    ({ cached := (s.cached).merge line, io := s.io },
     some ((s.cached).merge line, writeMode line.persistent))
  else
    match readResult with
    | Except.error e => ({ s with io := { s.io with err := some e } }, none)
    | Except.ok config =>
      ({ cached := config.merge line, io := s.io },
       some (config.merge line, writeMode line.persistent))

/-- One outbound tick (the body of the stdout loop in src/stdio.rs),
with the device read's outcome supplied as `readResult`. On a successful
read, `update_device_info` computes the diff line, which is emitted
exactly when `is_empty` is false. On a failed read, the error is
recorded in `io.err` for the next tick and nothing is emitted. -/
def outboundTick (s : UiState) (readResult : Except String DeviceConfiguration) :
    UiState × Option Line :=
  match readResult with
  | Except.ok config =>
    ((s.update_device_info config).1,
     if (s.update_device_info config).2.is_empty then none
     else some (s.update_device_info config).2)
  | Except.error e => ({ s with io := { s.io with err := some e } }, none)

/-- The buffer offsets that `DeviceConfiguration::read` inspects. -/
def inspectedOffsets : List Nat :=
  [0, 1, 4, 5, 6, 7, 8, 9, 10, 13, 15, 16, 17, 18, 19, 20, 28, 29, 30, 31, 32, 33]

/-- A substring test (used to check whether an error message mentions a
field name). -/
def strContains (hay needle : String) : Bool :=
  (List.range (hay.length + 1)).any fun i => needle.data.isPrefixOf (hay.data.drop i)

/-- The all-`None` `Line` (`Line::default()`). -/
def emptyLine : Line :=
  { gain := none, mute := none, clipguard := none, phantom := none, lowcut := none
    volume := none, mix := none, color_mute := none, color_gen := none, gain_lock := none
    color_gain_reduction := none, clipguard_indicator := none, lim := none
    persistent := none, use_cached := none, err := none }

/-- Rust `DeviceConfiguration::default()`: zeroes, `false`s, `Off`. -/
def defaultConfig : DeviceConfiguration :=
  { gain := 0, mute := false, clipguard := false, phantom := false
    lowcut := LowcutFilter.Off, volume := 0, mix := 0
    color_mute := ⟨0, 0, 0⟩, color_gen := ⟨0, 0, 0⟩, gain_lock := false
    color_gain_reduction := ⟨0, 0, 0⟩, clipguard_indicator := false, lim := false }

/-- The default configuration with the 80 Hz lowcut filter selected. -/
def config80 : DeviceConfiguration := { defaultConfig with lowcut := LowcutFilter.Cutoff080Hz }

/-- A 34-byte buffer that is valid everywhere except that the boolean
byte at offset 4 (`mute`) is `2`. -/
def bufBad4 : Buf := fun i => if i = 4 then 2 else 0

/-- The all-zero buffer (a valid record: all booleans `0`, lowcut
`0x0000`). -/
def bufZero : Buf := fun _ => 0

/-- The all-zero buffer with byte 2 (never inspected by decode) set
to 9. -/
def bufNine2 : Buf := fun i => if i = 2 then 9 else 0

/-- The lowcut u16 at offset 7 holds one of the three accepted codes. -/
def lowcutValid (buf : Buf) : Prop :=
  read_u16 buf 7 = 0x0000 ∨ read_u16 buf 7 = 0x0001 ∨ read_u16 buf 7 = 0x0100

/-- All thirteen domain fields of a `Line` are absent. -/
def domainsAbsent (l : Line) : Prop :=
  l.gain = none ∧ l.mute = none ∧ l.clipguard = none ∧ l.phantom = none
    ∧ l.lowcut = none ∧ l.volume = none ∧ l.mix = none ∧ l.color_mute = none
    ∧ l.color_gen = none ∧ l.gain_lock = none ∧ l.color_gain_reduction = none
    ∧ l.clipguard_indicator = none ∧ l.lim = none

/-- All thirteen domain fields of a `Line` are present and hold the
corresponding field of the configuration `c`. -/
def domainsAll (l : Line) (c : DeviceConfiguration) : Prop :=
  l.gain = some c.gain ∧ l.mute = some c.mute ∧ l.clipguard = some c.clipguard
    ∧ l.phantom = some c.phantom ∧ l.lowcut = some c.lowcut ∧ l.volume = some c.volume
    ∧ l.mix = some c.mix ∧ l.color_mute = some c.color_mute ∧ l.color_gen = some c.color_gen
    ∧ l.gain_lock = some c.gain_lock ∧ l.color_gain_reduction = some c.color_gain_reduction
    ∧ l.clipguard_indicator = some c.clipguard_indicator ∧ l.lim = some c.lim

/-- The thirteen domain fields of two `Line`s agree. -/
def domainsEq (l1 l2 : Line) : Prop :=
  l1.gain = l2.gain ∧ l1.mute = l2.mute ∧ l1.clipguard = l2.clipguard
    ∧ l1.phantom = l2.phantom ∧ l1.lowcut = l2.lowcut ∧ l1.volume = l2.volume
    ∧ l1.mix = l2.mix ∧ l1.color_mute = l2.color_mute ∧ l1.color_gen = l2.color_gen
    ∧ l1.gain_lock = l2.gain_lock ∧ l1.color_gain_reduction = l2.color_gain_reduction
    ∧ l1.clipguard_indicator = l2.clipguard_indicator ∧ l1.lim = l2.lim

/-- The process-start state: default configuration, empty snapshot. -/
def stateZero : UiState := { cached := defaultConfig, io := emptyLine }

/-- A state whose snapshot already matches `defaultConfig` on every
domain field and carries a pending error report. -/
def stateErr : UiState :=
  { cached := defaultConfig
    io := { gain := some 0, mute := some false, clipguard := some false
            phantom := some false, lowcut := some LowcutFilter.Off, volume := some 0
            mix := some 0, color_mute := some ⟨0, 0, 0⟩, color_gen := some ⟨0, 0, 0⟩
            gain_lock := some false, color_gain_reduction := some ⟨0, 0, 0⟩
            clipguard_indicator := some false, lim := some false
            persistent := none, use_cached := none, err := some "read timeout" } }

theorem except_bind_ok {α β : Type} (a : α) (f : α → Except String β) :
    (Except.ok a : Except String α) >>= f = f a := rfl

theorem except_bind_error {α β : Type} (e : String) (f : α → Except String β) :
    (Except.error e : Except String α) >>= f = (Except.error e : Except String β) := rfl

theorem read_bool_valid (buf : Buf) (o : Nat) (h : buf o < 2) :
    read_bool buf o = Except.ok (decide (buf o = 1)) := by
  unfold read_bool
  have h' : buf o = 0 ∨ buf o = 1 := by omega
  rcases h' with h0 | h0 <;> simp [h0]

theorem read_bool_invalid (buf : Buf) (o : Nat) (h : 2 ≤ buf o) :
    read_bool buf o = Except.error (boolErr o (buf o)) := by
  unfold read_bool
  rw [if_neg (by omega), if_neg (by omega)]

theorem read_lowcut_invalid (buf : Buf) (h0 : read_u16 buf 7 ≠ 0x0000)
    (h1 : read_u16 buf 7 ≠ 0x0001) (h2 : read_u16 buf 7 ≠ 0x0100) :
    read_lowcut buf = Except.error (lowcutErr (read_u16 buf 7)) := by
  unfold read_lowcut
  rw [if_neg h0, if_neg h1, if_neg h2]

theorem read_lowcut_ok_of_valid (buf : Buf) (h : lowcutValid buf) :
    ∃ lf, read_lowcut buf = Except.ok lf := by
  unfold lowcutValid at h
  rcases h with h | h | h
  · exact ⟨LowcutFilter.Off, by unfold read_lowcut; rw [h]; rfl⟩
  · exact ⟨LowcutFilter.Cutoff080Hz, by unfold read_lowcut; rw [h]; rfl⟩
  · exact ⟨LowcutFilter.Cutoff120Hz, by unfold read_lowcut; rw [h]; rfl⟩

theorem diffField_fst {α : Type} [DecidableEq α] (cur : α) (snap : Option α) :
    (diffField cur snap).1 = some cur := by
  unfold diffField
  cases snap with
  | none => rfl
  | some v =>
    by_cases h : cur = v
    · simp [h]
    · simp [h]

theorem diffField_same {α : Type} [DecidableEq α] (cur : α) :
    diffField cur (some cur) = (some cur, none) := by
  simp [diffField]

/-- Claim C1. The spec's round-trip property fails on the code: for the
default configuration with the 80 Hz lowcut filter, `read ∘ write`
yields the 120 Hz filter instead, because `write` uses the
`LowcutFilter` discriminants (`Cutoff080Hz = 0x0100`,
`Cutoff120Hz = 0x0001`) while `read` maps `0x0001 → Cutoff080Hz` and
`0x0100 → Cutoff120Hz`. Every other field survives the round trip at
this input. -/
theorem C1_lowcut_roundtrip_bug :
    DeviceConfiguration.read (DeviceConfiguration.write config80)
        = Except.ok { config80 with lowcut := LowcutFilter.Cutoff120Hz }
      ∧ config80.lowcut = LowcutFilter.Cutoff080Hz
      ∧ LowcutFilter.Cutoff120Hz ≠ LowcutFilter.Cutoff080Hz :=
  ⟨rfl, rfl, by decide⟩

/-- Claim C6. Calling `update_device_info` twice in a row with the same
configuration and no other snapshot mutation in between returns, on the
second call, the all-`None` line: no domain fields, no error. -/
theorem C6_second_diff_empty (s : UiState) (config : DeviceConfiguration) :
    ((s.update_device_info config).1.update_device_info config).2 = emptyLine := by
  simp [UiState.update_device_info, emptyLine, diffField_fst, diffField_same]

/-- Claim C7. `write` always emits the constant bytes `0x00 0xEC` at
offsets 2–3, `0` at offset 11, `1` at offsets 14 and 27, and copies the
single stored `color_gen` triple to all three of offsets 18–20, 21–23
and 24–26. -/
theorem C7_constant_bytes (c : DeviceConfiguration) :
    DeviceConfiguration.write c 2 = 0x00
      ∧ DeviceConfiguration.write c 3 = 0xec
      ∧ DeviceConfiguration.write c 11 = 0
      ∧ DeviceConfiguration.write c 14 = 1
      ∧ DeviceConfiguration.write c 27 = 1
      ∧ DeviceConfiguration.write c 18 = c.color_gen.c0
      ∧ DeviceConfiguration.write c 19 = c.color_gen.c1
      ∧ DeviceConfiguration.write c 20 = c.color_gen.c2
      ∧ DeviceConfiguration.write c 21 = c.color_gen.c0
      ∧ DeviceConfiguration.write c 22 = c.color_gen.c1
      ∧ DeviceConfiguration.write c 23 = c.color_gen.c2
      ∧ DeviceConfiguration.write c 24 = c.color_gen.c0
      ∧ DeviceConfiguration.write c 25 = c.color_gen.c1
      ∧ DeviceConfiguration.write c 26 = c.color_gen.c2 :=
  ⟨rfl, rfl, rfl, rfl, rfl, rfl, rfl, rfl, rfl, rfl, rfl, rfl, rfl, rfl⟩

/-- Claim C8. Byte 12 of `write c` is `1` exactly when `c.mix` is 41
or 47, and `0` otherwise; in particular `mix = 41` gives byte 12 = 1 and
`mix = 42` gives byte 12 = 0. -/
theorem C8_mix_flag (c : DeviceConfiguration) :
    DeviceConfiguration.write c 12 = (if c.mix = 41 ∨ c.mix = 47 then 1 else 0)
      ∧ DeviceConfiguration.write { defaultConfig with mix := 41 } 12 = 1
      ∧ DeviceConfiguration.write { defaultConfig with mix := 42 } 12 = 0 := by
  refine ⟨?_, rfl, rfl⟩
  show mixFlag c.mix = _
  unfold mixFlag
  by_cases h41 : c.mix = 41
  · simp [h41]
  · by_cases h47 : c.mix = 47 <;> simp [h41, h47]

/-- Claim C10. After every `update_device_info` call the snapshot's
`err` field is `None`: the stored error message, if any, is moved into
the returned line. -/
theorem C10_err_taken (s : UiState) (config : DeviceConfiguration) :
    (s.update_device_info config).1.io.err = none
      ∧ (s.update_device_info config).2.err = s.io.err :=
  ⟨rfl, rfl⟩

/-- Claim C2 (amended). Decode rejects out-of-domain bytes: if any
boolean byte (offsets 4, 5, 6, 28, 32, 33) is neither 0 nor 1, decode
returns an error; the error reported is the one for the first invalid
field in decode order and reads `expected bool at <offset>:1 got
<value>` — it identifies the field by offset and expected type, not by
field name. A lowcut u16 at offset 7 other than 0x0000/0x0001/0x0100
(with bytes 4–6 valid) yields `expected Lowcut Filter at 7:2 got
<value>`. -/
theorem C2_decode_rejects_amended (buf : Buf) :
    ((2 ≤ buf 4 ∨ 2 ≤ buf 5 ∨ 2 ≤ buf 6 ∨ 2 ≤ buf 28 ∨ 2 ≤ buf 32 ∨ 2 ≤ buf 33) →
        ∃ m, DeviceConfiguration.read buf = Except.error m)
      ∧ (2 ≤ buf 4 →
          DeviceConfiguration.read buf = Except.error (boolErr 4 (buf 4)))
      ∧ (buf 4 < 2 → 2 ≤ buf 5 →
          DeviceConfiguration.read buf = Except.error (boolErr 5 (buf 5)))
      ∧ (buf 4 < 2 → buf 5 < 2 → 2 ≤ buf 6 →
          DeviceConfiguration.read buf = Except.error (boolErr 6 (buf 6)))
      ∧ (buf 4 < 2 → buf 5 < 2 → buf 6 < 2 → ¬lowcutValid buf →
          DeviceConfiguration.read buf = Except.error (lowcutErr (read_u16 buf 7)))
      ∧ (buf 4 < 2 → buf 5 < 2 → buf 6 < 2 → lowcutValid buf → 2 ≤ buf 28 →
          DeviceConfiguration.read buf = Except.error (boolErr 28 (buf 28)))
      ∧ (buf 4 < 2 → buf 5 < 2 → buf 6 < 2 → lowcutValid buf → buf 28 < 2 → 2 ≤ buf 32 →
          DeviceConfiguration.read buf = Except.error (boolErr 32 (buf 32)))
      ∧ (buf 4 < 2 → buf 5 < 2 → buf 6 < 2 → lowcutValid buf → buf 28 < 2 → buf 32 < 2 →
          2 ≤ buf 33 →
          DeviceConfiguration.read buf = Except.error (boolErr 33 (buf 33))) := by
  have hb4 : 2 ≤ buf 4 →
      DeviceConfiguration.read buf = Except.error (boolErr 4 (buf 4)) := by
    intro h4
    simp only [DeviceConfiguration.read, read_bool_invalid buf 4 h4, except_bind_error]
  have hb5 : buf 4 < 2 → 2 ≤ buf 5 →
      DeviceConfiguration.read buf = Except.error (boolErr 5 (buf 5)) := by
    intro h4 h5
    simp only [DeviceConfiguration.read, read_bool_valid buf 4 h4,
      read_bool_invalid buf 5 h5, except_bind_ok, except_bind_error]
  have hb6 : buf 4 < 2 → buf 5 < 2 → 2 ≤ buf 6 →
      DeviceConfiguration.read buf = Except.error (boolErr 6 (buf 6)) := by
    intro h4 h5 h6
    simp only [DeviceConfiguration.read, read_bool_valid buf 4 h4,
      read_bool_valid buf 5 h5, read_bool_invalid buf 6 h6,
      except_bind_ok, except_bind_error]
  have hlc : buf 4 < 2 → buf 5 < 2 → buf 6 < 2 → ¬lowcutValid buf →
      DeviceConfiguration.read buf = Except.error (lowcutErr (read_u16 buf 7)) := by
    intro h4 h5 h6 hv
    unfold lowcutValid at hv
    push_neg at hv
    obtain ⟨hv0, hv1, hv2⟩ := hv
    simp only [DeviceConfiguration.read, read_bool_valid buf 4 h4,
      read_bool_valid buf 5 h5, read_bool_valid buf 6 h6,
      read_lowcut_invalid buf hv0 hv1 hv2, except_bind_ok, except_bind_error]
  have hb28 : buf 4 < 2 → buf 5 < 2 → buf 6 < 2 → lowcutValid buf → 2 ≤ buf 28 →
      DeviceConfiguration.read buf = Except.error (boolErr 28 (buf 28)) := by
    intro h4 h5 h6 hv h28
    obtain ⟨lf, hlf⟩ := read_lowcut_ok_of_valid buf hv
    simp only [DeviceConfiguration.read, read_bool_valid buf 4 h4,
      read_bool_valid buf 5 h5, read_bool_valid buf 6 h6, hlf,
      read_bool_invalid buf 28 h28, except_bind_ok, except_bind_error]
  have hb32 : buf 4 < 2 → buf 5 < 2 → buf 6 < 2 → lowcutValid buf → buf 28 < 2 →
      2 ≤ buf 32 →
      DeviceConfiguration.read buf = Except.error (boolErr 32 (buf 32)) := by
    intro h4 h5 h6 hv h28 h32
    obtain ⟨lf, hlf⟩ := read_lowcut_ok_of_valid buf hv
    simp only [DeviceConfiguration.read, read_bool_valid buf 4 h4,
      read_bool_valid buf 5 h5, read_bool_valid buf 6 h6, hlf,
      read_bool_valid buf 28 h28, read_bool_invalid buf 32 h32,
      except_bind_ok, except_bind_error]
  have hb33 : buf 4 < 2 → buf 5 < 2 → buf 6 < 2 → lowcutValid buf → buf 28 < 2 →
      buf 32 < 2 → 2 ≤ buf 33 →
      DeviceConfiguration.read buf = Except.error (boolErr 33 (buf 33)) := by
    intro h4 h5 h6 hv h28 h32 h33
    obtain ⟨lf, hlf⟩ := read_lowcut_ok_of_valid buf hv
    simp only [DeviceConfiguration.read, read_bool_valid buf 4 h4,
      read_bool_valid buf 5 h5, read_bool_valid buf 6 h6, hlf,
      read_bool_valid buf 28 h28, read_bool_valid buf 32 h32,
      read_bool_invalid buf 33 h33, except_bind_ok, except_bind_error]
  have hany : (2 ≤ buf 4 ∨ 2 ≤ buf 5 ∨ 2 ≤ buf 6 ∨ 2 ≤ buf 28 ∨ 2 ≤ buf 32 ∨ 2 ≤ buf 33) →
      ∃ m, DeviceConfiguration.read buf = Except.error m := by
    intro h
    by_cases h4 : 2 ≤ buf 4
    · exact ⟨_, hb4 h4⟩
    · by_cases h5 : 2 ≤ buf 5
      · exact ⟨_, hb5 (by omega) h5⟩
      · by_cases h6 : 2 ≤ buf 6
        · exact ⟨_, hb6 (by omega) (by omega) h6⟩
        · by_cases hv : lowcutValid buf
          · by_cases h28 : 2 ≤ buf 28
            · exact ⟨_, hb28 (by omega) (by omega) (by omega) hv h28⟩
            · by_cases h32 : 2 ≤ buf 32
              · exact ⟨_, hb32 (by omega) (by omega) (by omega) hv (by omega) h32⟩
              · by_cases h33 : 2 ≤ buf 33
                · exact ⟨_, hb33 (by omega) (by omega) (by omega) hv (by omega) (by omega) h33⟩
                · exfalso
                  rcases h with h | h | h | h | h | h <;> omega
          · exact ⟨_, hlc (by omega) (by omega) (by omega) hv⟩
  exact ⟨hany, hb4, hb5, hb6, hlc, hb28, hb32, hb33⟩

/-- Claim C2, counterexample to the claim as stated: on the buffer whose
`mute` byte (offset 4) is `2`, decode's error message is `expected bool
at 4:1 got 2`, which does not name the `mute` field (it names only the
expected type and the offset). -/
theorem C2_decode_rejects_counterexample :
    DeviceConfiguration.read bufBad4 = Except.error "expected bool at 4:1 got 2"
      ∧ strContains "expected bool at 4:1 got 2" "mute" = false
      ∧ strContains "expected bool at 4:1 got 2" "Mute" = false :=
  ⟨rfl, by decide, by decide⟩

/-- Claim C2, witness: the amended theorem applied to the concrete
buffer whose byte 4 is `2`. -/
theorem C2_decode_rejects_witness :
    2 ≤ bufBad4 4
      ∧ DeviceConfiguration.read bufBad4 = Except.error (boolErr 4 (bufBad4 4)) :=
  ⟨by decide, (C2_decode_rejects_amended bufBad4).2.1 (by decide)⟩

/-- Claim C3. Diffing any configuration against a snapshot whose domain
fields are all absent returns a line with every one of the 13 domain
fields present and equal to the configuration's value, and stores the
configuration's value for every domain field in the snapshot. -/
theorem C3_fresh_snapshot_full (s : UiState) (config : DeviceConfiguration)
    (h : domainsAbsent s.io) :
    domainsAll (s.update_device_info config).2 config
      ∧ domainsAll (s.update_device_info config).1.io config := by
  obtain ⟨h1, h2, h3, h4, h5, h6, h7, h8, h9, h10, h11, h12, h13⟩ := h
  unfold domainsAll UiState.update_device_info
  simp [h1, h2, h3, h4, h5, h6, h7, h8, h9, h10, h11, h12, h13, diffField]

/-- Claim C3, witness: the theorem applied to the process-start state
and the 80 Hz configuration. -/
theorem C3_fresh_snapshot_full_witness :
    domainsAbsent stateZero.io
      ∧ (domainsAll (stateZero.update_device_info config80).2 config80
          ∧ domainsAll (stateZero.update_device_info config80).1.io config80) :=
  ⟨by unfold domainsAbsent; decide,
    C3_fresh_snapshot_full stateZero config80 (by unfold domainsAbsent; decide)⟩

/-- Claim C4. On a successful read the outbound tick emits the diff line
exactly when it is non-empty; a line is empty exactly when all 13 domain
fields are absent and there is no error; and a stored error message is
attached to the emitted line's `err` field and forces emission. -/
theorem C4_emit_iff_nonempty (s : UiState) (config : DeviceConfiguration) :
    ((outboundTick s (Except.ok config)).2 = none
        ↔ (s.update_device_info config).2.is_empty = true)
      ∧ (∀ l : Line, l.is_empty = true ↔ (domainsAbsent l ∧ l.err = none))
      ∧ (∀ e, s.io.err = some e →
          (s.update_device_info config).2.err = some e
            ∧ (outboundTick s (Except.ok config)).2
                = some (s.update_device_info config).2) := by
  refine ⟨?_, ?_, ?_⟩
  · unfold outboundTick
    by_cases hemp : (s.update_device_info config).2.is_empty
    · simp [hemp]
    · simp [hemp]
  · intro l
    unfold Line.is_empty domainsAbsent
    simp only [Bool.and_eq_true, Option.isNone_iff_eq_none]
    tauto
  · intro e he
    have herr : (s.update_device_info config).2.err = some e := by
      have hsame : (s.update_device_info config).2.err = s.io.err := rfl
      rw [hsame, he]
    refine ⟨herr, ?_⟩
    have hne : (s.update_device_info config).2.is_empty = false := by
      unfold Line.is_empty
      simp [herr]
    unfold outboundTick
    simp [hne]

/-- Claim C4, witness: a snapshot that matches the configuration on
every domain field but carries a pending error still causes emission,
with the error attached. -/
theorem C4_emit_iff_nonempty_witness :
    stateErr.io.err = some "read timeout"
      ∧ ((stateErr.update_device_info defaultConfig).2.err = some "read timeout"
          ∧ (outboundTick stateErr (Except.ok defaultConfig)).2
              = some (stateErr.update_device_info defaultConfig).2) :=
  ⟨rfl, (C4_emit_iff_nonempty stateErr defaultConfig).2.2 "read timeout" rfl⟩

/-- Claim C5. When the inbound patch's `use_cached` directive is absent
or false, the unit of work consults the device read: on a failed read it
aborts — the cached configuration and every domain field of the snapshot
are unchanged (only `err` records the failure) and nothing is written —
and on a successful read the configuration written is the freshly read
one with the patch merged in. -/
theorem C5_inbound_read_failure (s : UiState) (line : Line)
    (r : Except String DeviceConfiguration)
    (hc : line.use_cached = none ∨ line.use_cached = some false) :
    (∀ e, r = Except.error e →
        (inboundUnit s line r).1.cached = s.cached
          ∧ domainsEq (inboundUnit s line r).1.io s.io
          ∧ (inboundUnit s line r).1.io.persistent = s.io.persistent
          ∧ (inboundUnit s line r).1.io.use_cached = s.io.use_cached
          ∧ (inboundUnit s line r).2 = none)
      ∧ (∀ config, r = Except.ok config →
          (inboundUnit s line r).1.cached = config.merge line
            ∧ (inboundUnit s line r).2
                = some (config.merge line, writeMode line.persistent)) := by
  have hg : line.use_cached.getD false = false := by
    rcases hc with h | h <;> simp [h]
  constructor
  · intro e he
    subst he
    unfold inboundUnit
    simp [hg, domainsEq]
  · intro config hok
    subst hok
    unfold inboundUnit
    simp [hg]

/-- Claim C5, witness: the theorem applied to the process-start state,
an empty patch (whose `use_cached` is absent) and a failed device
read. -/
theorem C5_inbound_read_failure_witness :
    (emptyLine.use_cached = none ∨ emptyLine.use_cached = some false)
      ∧ ((inboundUnit stateZero emptyLine (Except.error "device timeout")).1.cached
            = stateZero.cached
          ∧ domainsEq (inboundUnit stateZero emptyLine (Except.error "device timeout")).1.io
              stateZero.io
          ∧ (inboundUnit stateZero emptyLine (Except.error "device timeout")).1.io.persistent
              = stateZero.io.persistent
          ∧ (inboundUnit stateZero emptyLine (Except.error "device timeout")).1.io.use_cached
              = stateZero.io.use_cached
          ∧ (inboundUnit stateZero emptyLine (Except.error "device timeout")).2 = none) :=
  ⟨Or.inl rfl,
    (C5_inbound_read_failure stateZero emptyLine (Except.error "device timeout")
      (Or.inl rfl)).1 "device timeout" rfl⟩

/-- Claim C9. Decode inspects only the offsets 0–1, 4–10, 13, 15–20 and
28–33: two buffers that agree there decode identically, so bytes 2–3,
11, 12, 14 and 21–27 never affect the outcome. -/
theorem C9_decode_inspects_only (a b : Buf)
    (h : ∀ i ∈ inspectedOffsets, a i = b i) :
    DeviceConfiguration.read a = DeviceConfiguration.read b := by
  have e0 : a 0 = b 0 := h 0 (by simp [inspectedOffsets])
  have e1 : a 1 = b 1 := h 1 (by simp [inspectedOffsets])
  have e4 : a 4 = b 4 := h 4 (by simp [inspectedOffsets])
  have e5 : a 5 = b 5 := h 5 (by simp [inspectedOffsets])
  have e6 : a 6 = b 6 := h 6 (by simp [inspectedOffsets])
  have e7 : a 7 = b 7 := h 7 (by simp [inspectedOffsets])
  have e8 : a 8 = b 8 := h 8 (by simp [inspectedOffsets])
  have e9 : a 9 = b 9 := h 9 (by simp [inspectedOffsets])
  have e10 : a 10 = b 10 := h 10 (by simp [inspectedOffsets])
  have e13 : a 13 = b 13 := h 13 (by simp [inspectedOffsets])
  have e15 : a 15 = b 15 := h 15 (by simp [inspectedOffsets])
  have e16 : a 16 = b 16 := h 16 (by simp [inspectedOffsets])
  have e17 : a 17 = b 17 := h 17 (by simp [inspectedOffsets])
  have e18 : a 18 = b 18 := h 18 (by simp [inspectedOffsets])
  have e19 : a 19 = b 19 := h 19 (by simp [inspectedOffsets])
  have e20 : a 20 = b 20 := h 20 (by simp [inspectedOffsets])
  have e28 : a 28 = b 28 := h 28 (by simp [inspectedOffsets])
  have e29 : a 29 = b 29 := h 29 (by simp [inspectedOffsets])
  have e30 : a 30 = b 30 := h 30 (by simp [inspectedOffsets])
  have e31 : a 31 = b 31 := h 31 (by simp [inspectedOffsets])
  have e32 : a 32 = b 32 := h 32 (by simp [inspectedOffsets])
  have e33 : a 33 = b 33 := h 33 (by simp [inspectedOffsets])
  simp [DeviceConfiguration.read, read_bool, read_lowcut, read_u16, read_i16,
    Color.read, boolErr, lowcutErr, e0, e1, e4, e5, e6, e7, e8, e9, e10, e13,
    e15, e16, e17, e18, e19, e20, e28, e29, e30, e31, e32, e33]

/-- Claim C9, witness: the all-zero buffer and the buffer with byte 2
set to 9 agree on every inspected offset and decode identically. -/
theorem C9_decode_inspects_only_witness :
    (∀ i ∈ inspectedOffsets, bufZero i = bufNine2 i)
      ∧ DeviceConfiguration.read bufZero = DeviceConfiguration.read bufNine2 :=
  ⟨by decide, C9_decode_inspects_only bufZero bufNine2 (by decide)⟩

end TidalWave
